import Mathlib

/-!
Verification of the artist-data normalization core of the ArtistMusicProject
repository (`artist_data/utils.py`, `artist_data/extract/genius_extract.py`,
`artist_data/extract/spotify_extract.py`).

The Python code is shallowly embedded: Python values are modelled by the
inductive type `Value` (None, bool, int, str, list, dict with string keys),
Python exceptions by `PyErr`, and fallible Python functions by
`Except PyErr`-valued Lean functions.  External API clients (lyricsgenius,
spotipy) are modelled as structures of response functions supplied by the
caller, exactly as the spec treats them ("callers supply already-authenticated
client handles").  Unbounded `while` pagination loops take an explicit fuel
argument; fuel exhaustion is a distinguished modelling-only error.
-/

set_option maxRecDepth 4000

namespace ArtistMusic

/-- Model of the Python values flowing through the normalization layer:
scalars, strings, lists and string-keyed dictionaries (all dictionary keys in
the embedded code are strings).  A dictionary is its ordered entry list. -/
inductive Value : Type where
  | none : Value
  | bool : Bool → Value
  | int : Int → Value
  | str : String → Value
  | list : List Value → Value
  | dict : List (String × Value) → Value
deriving Repr

mutual

/-- Decidable structural equality on `Value` (Python `==` restricted to the
value shapes occurring in this code base, where cross-type comparisons are
always unequal). -/
def Value.decEq : (a b : Value) → Decidable (a = b)
  | .none, .none => .isTrue rfl
  | .bool a, .bool b =>
    match inferInstanceAs (Decidable (a = b)) with
    | .isTrue h => .isTrue (by rw [h])
    | .isFalse h => .isFalse (by intro he; injection he; contradiction)
  | .int a, .int b =>
    match inferInstanceAs (Decidable (a = b)) with
    | .isTrue h => .isTrue (by rw [h])
    | .isFalse h => .isFalse (by intro he; injection he; contradiction)
  | .str a, .str b =>
    match inferInstanceAs (Decidable (a = b)) with
    | .isTrue h => .isTrue (by rw [h])
    | .isFalse h => .isFalse (by intro he; injection he; contradiction)
  | .list as, .list bs =>
    match Value.decEqList as bs with
    | .isTrue h => .isTrue (by rw [h])
    | .isFalse h => .isFalse (by intro he; injection he; contradiction)
  | .dict es, .dict fs =>
    match Value.decEqDict es fs with
    | .isTrue h => .isTrue (by rw [h])
    | .isFalse h => .isFalse (by intro he; injection he; contradiction)
  | .none, .bool _ | .none, .int _ | .none, .str _
  | .none, .list _ | .none, .dict _
  | .bool _, .none | .bool _, .int _ | .bool _, .str _
  | .bool _, .list _ | .bool _, .dict _
  | .int _, .none | .int _, .bool _ | .int _, .str _
  | .int _, .list _ | .int _, .dict _
  | .str _, .none | .str _, .bool _ | .str _, .int _
  | .str _, .list _ | .str _, .dict _
  | .list _, .none | .list _, .bool _ | .list _, .int _
  | .list _, .str _ | .list _, .dict _
  | .dict _, .none | .dict _, .bool _ | .dict _, .int _
  | .dict _, .str _ | .dict _, .list _ => .isFalse nofun

/-- Componentwise decidable equality on lists of values. -/
def Value.decEqList : (as bs : List Value) → Decidable (as = bs)
  | [], [] => .isTrue rfl
  | [], _ :: _ => .isFalse nofun
  | _ :: _, [] => .isFalse nofun
  | a :: as, b :: bs =>
    match Value.decEq a b, Value.decEqList as bs with
    | .isTrue h1, .isTrue h2 => .isTrue (by rw [h1, h2])
    | .isFalse h1, _ =>
      .isFalse (by intro he; injection he; contradiction)
    | _, .isFalse h2 =>
      .isFalse (by intro he; injection he; contradiction)

/-- Componentwise decidable equality on dictionary entry lists. -/
def Value.decEqDict : (es fs : List (String × Value)) → Decidable (es = fs)
  | [], [] => .isTrue rfl
  | [], _ :: _ => .isFalse nofun
  | _ :: _, [] => .isFalse nofun
  | (k, a) :: es, (l, b) :: fs =>
    match inferInstanceAs (Decidable (k = l)), Value.decEq a b,
        Value.decEqDict es fs with
    | .isTrue h1, .isTrue h2, .isTrue h3 => .isTrue (by rw [h1, h2, h3])
    | .isFalse h1, _, _ =>
      .isFalse (by intro he; injection he with h hs; injection h; contradiction)
    | _, .isFalse h2, _ =>
      .isFalse (by intro he; injection he with h hs; injection h; contradiction)
    | _, _, .isFalse h3 =>
      .isFalse (by intro he; injection he; contradiction)

end

instance : DecidableEq Value := Value.decEq

/-- The Python type name of a value, used to render `AttributeError` /
`TypeError` messages the way CPython does. -/
def Value.typeName : Value → String
  | .none => "NoneType"
  | .bool _ => "bool"
  | .int _ => "int"
  | .str _ => "str"
  | .list _ => "list"
  | .dict _ => "dict"

/-- Python truthiness: `None`, `False`, `0`, `""`, `[]` and `{}` are falsy,
everything else is truthy. -/
def Value.truthy : Value → Bool
  | .none => false
  | .bool b => b
  | .int n => n != 0
  | .str s => s != ""
  | .list l => !l.isEmpty
  | .dict d => !d.isEmpty

/-- Model of the Python exceptions that the embedded code can raise or
catch.  The built-in exceptions carry their rendered message (`str(e)`).
`GeniusAPIError`, `ArtistNotFoundError` and `TrackDataError` are the custom
exception classes of `genius_extract.py` (the latter two are subclasses of
the first).  `otherError` stands for an arbitrary unexpected exception raised
by an external client.  `fuelExhausted` is a modelling artifact marking a
pagination `while` loop that did not terminate within the supplied fuel. -/
inductive PyErr : Type where
  | attributeError : String → PyErr
  | keyError : String → PyErr
  | indexError : String → PyErr
  | typeError : String → PyErr
  | valueError : String → PyErr
  | geniusAPIError : String → PyErr
  | artistNotFoundError : String → PyErr
  | trackDataError : String → PyErr
  | otherError : String → PyErr
  | fuelExhausted : String → PyErr
deriving DecidableEq, Repr

instance {ε α : Type} [DecidableEq ε] [DecidableEq α] :
    DecidableEq (Except ε α) := fun a b =>
  match a, b with
  | .ok x, .ok y =>
    match inferInstanceAs (Decidable (x = y)) with
    | .isTrue h => .isTrue (by rw [h])
    | .isFalse h => .isFalse (by intro he; injection he; contradiction)
  | .error e, .error f =>
    match inferInstanceAs (Decidable (e = f)) with
    | .isTrue h => .isTrue (by rw [h])
    | .isFalse h => .isFalse (by intro he; injection he; contradiction)
  | .ok _, .error _ => .isFalse nofun
  | .error _, .ok _ => .isFalse nofun

/-- `str(e)`: the message carried by an exception. -/
def PyErr.msg : PyErr → String
  | .attributeError m => m
  | .keyError m => m
  | .indexError m => m
  | .typeError m => m
  | .valueError m => m
  | .geniusAPIError m => m
  | .artistNotFoundError m => m
  | .trackDataError m => m
  | .otherError m => m
  | .fuelExhausted m => m

/-- First-match lookup in an ordered key/value list; this is dictionary
subscript resolution (a well-formed Python dict has unique keys, so first
match and only match coincide). -/
def lookupKV {κ α : Type} [DecidableEq κ] (k : κ) : List (κ × α) → Option α
  | [] => Option.none
  | p :: rest => if p.1 = k then some p.2 else lookupKV k rest

/-- Python `d[k] = v` on a dict represented as an ordered entry list: if the
key is present its (first and, in a well-formed dict, only) entry is
overwritten in place, otherwise the new entry is appended (CPython
insertion-order semantics). -/
def dictSet {κ α : Type} [DecidableEq κ] : List (κ × α) → κ → α → List (κ × α)
  | [], k, v => [(k, v)]
  | p :: rest, k, v =>
    if p.1 = k then (k, v) :: rest else p :: dictSet rest k v

/-- Python `d.update(e)`: assign every entry of `e` into `d` in order. -/
def dictUpdate {κ α : Type} [DecidableEq κ] (d e : List (κ × α)) :
    List (κ × α) :=
  e.foldl (fun acc p => dictSet acc p.1 p.2) d

/-- Python `d.pop(k, None)`: remove the entry for `k` (if any), keeping the
order of the others. -/
def dictPop {κ α : Type} [DecidableEq κ] (d : List (κ × α)) (k : κ) :
    List (κ × α) :=
  d.filter (fun p => p.1 ≠ k)

/-- Modelled from the spec: the repository imports `UNKNOWN_VALUE` from
`artist_data/setup.py`, a file that is not among the sources.  The spec
describes it as the single distinguished sentinel "unknown" value, a
global magic-string constant, substituted wherever a response is missing
expected data. -/
def UNKNOWN_VALUE : Value := Value.str "UNKNOWN"

/-- `utils.safe_get(data, key, UNKNOWN_VALUE)`: `data.get(key, default)`.
On a dict this returns the stored value or the default and never raises; on
any other value CPython raises `AttributeError` because only mappings have a
`.get` attribute. -/
def safe_get (data : Value) (key : String) (u : Value) : Except PyErr Value :=
  match data with
  | .dict d => .ok ((lookupKV key d).getD u)
  | v => .error (.attributeError
      ("'" ++ v.typeName ++ "' object has no attribute 'get'"))

/-- The `for key in key_path` loop inside `utils.extract_value`: walk the
path applying `safe_get`, breaking out as soon as a step yields the sentinel
`u`. -/
def extract_value_loop (u : Value) : Value → List String → Except PyErr Value
  | value, [] => .ok value
  | value, key :: rest => do
    let v ← safe_get value key u
    if v = u then .ok v else extract_value_loop u v rest

/-- `utils.extract_value(data, key_path, UNKNOWN_VALUE)`: run the traversal
loop inside `try ... except AttributeError: return UNKNOWN_VALUE`, then
return `value if value else UNKNOWN_VALUE` (any falsy final value is replaced
by the sentinel). -/
def extract_value (data : Value) (key_path : List String) (u : Value) :
    Except PyErr Value :=
  match extract_value_loop u data key_path with
  | .ok v => .ok (if v.truthy then v else u)
  | .error (.attributeError _) => .ok u
  | .error e => .error e

/-- `utils.safe_extract`: a direct wrapper around `extract_value`. -/
def safe_extract (data : Value) (key_path : List String) (u : Value) :
    Except PyErr Value :=
  extract_value data key_path u

/-- CPython hashability of a value: lists and dicts are unhashable (their
`__hash__` is `None`), scalars and strings are hashable.  `dict.get` hashes
its key first, so an unhashable key raises `TypeError` before any lookup. -/
def Value.hashable : Value → Bool
  | .list _ => false
  | .dict _ => false
  | _ => true

/-- `utils.safe_get` applied to an arbitrarily typed key (the Python
function is untyped at runtime — its `key: str` annotation is not
enforced): on a dict, CPython first hashes the key, so an unhashable key
(list, dict) raises `TypeError`; a hashable key returns the stored entry or
the default, a non-string hashable key matching no entry of these
string-keyed dicts.  On a non-mapping, `.get` raises `AttributeError` as
before. -/
def safe_get_anyKey (data : Value) (key : Value) (u : Value) :
    Except PyErr Value :=
  match data with
  | .dict es =>
    if key.hashable then
      .ok ((match key with
        | .str s => lookupKV s es
        | _ => Option.none).getD u)
    else
      .error (.typeError ("unhashable type: '" ++ key.typeName ++ "'"))
  | v => .error (.attributeError
      ("'" ++ v.typeName ++ "' object has no attribute 'get'"))

/-- The `for key in key_path` loop of `utils.extract_value` over a key path
of arbitrarily typed keys. -/
def extract_value_loop_anyKey (u : Value) :
    Value → List Value → Except PyErr Value
  | value, [] => .ok value
  | value, key :: rest => do
    let v ← safe_get_anyKey value key u
    if v = u then .ok v else extract_value_loop_anyKey u v rest

/-- `utils.extract_value` over a key path of arbitrarily typed keys: the
`try` still catches only `AttributeError`, so the `TypeError` raised by an
unhashable key propagates to the caller. -/
def extract_value_anyKey (data : Value) (key_path : List Value) (u : Value) :
    Except PyErr Value :=
  match extract_value_loop_anyKey u data key_path with
  | .ok v => .ok (if v.truthy then v else u)
  | .error (.attributeError _) => .ok u
  | .error e => .error e

/-- `utils.flat_nested_dictionary(d, parent_key)`:
`nested = safe_get(d, parent_key, {})`; if the nested value is a dict,
`d.update(nested)`; then `d.pop(parent_key, None)` and return `d`. -/
def flat_nested_dictionary (d : Value) (parent_key : String) :
    Except PyErr Value := do
  let nested ← safe_get d parent_key (.dict [])
  match d, nested with
  | .dict es, .dict ns => .ok (.dict (dictPop (dictUpdate es ns) parent_key))
  | .dict es, _ => .ok (.dict (dictPop es parent_key))
  | v, _ => .error (.attributeError
      ("'" ++ v.typeName ++ "' object has no attribute 'update'"))

/-- Specification-side plain traversal of a key path over a value: `some v`
when every step goes through an explicitly present dict entry, `none` as soon
as a key is absent or an intermediate value is not a dict.  Used to phrase
the falsy-path invariant of `extract_value`. -/
def resolve : Value → List String → Option Value
  | v, [] => some v
  | .dict es, k :: ks =>
    match lookupKV k es with
    | some w => resolve w ks
    | Option.none => Option.none
  | _, _ :: _ => Option.none

/-- Python iteration `for x in v`: lists yield their elements, strings yield
their one-character substrings, dicts yield their keys; every other value
raises `TypeError`. -/
def toIterable : Value → Except PyErr (List Value)
  | .list l => .ok l
  | .str s => .ok (s.toList.map (fun c => Value.str (String.mk [c])))
  | .dict es => .ok (es.map (fun p => Value.str p.1))
  | v => .error (.typeError ("'" ++ v.typeName ++ "' object is not iterable"))

/-- Python subscript `v[k]` with a string key: dicts return the stored value
or raise `KeyError`; every other value raises `TypeError`. -/
def getItem (v : Value) (k : String) : Except PyErr Value :=
  match v with
  | .dict es =>
    match lookupKV k es with
    | some w => .ok w
    | Option.none => .error (.keyError ("'" ++ k ++ "'"))
  | v => .error (.typeError
      ("'" ++ v.typeName ++ "' object is not subscriptable"))

/-- Python subscript `v[i]` with a non-negative integer index: lists and
strings index their elements or raise `IndexError`; dicts raise `KeyError`
(their keys are strings here); every other value raises `TypeError`. -/
def pyIndex (v : Value) (i : Nat) : Except PyErr Value :=
  match v with
  | .list l =>
    match l.get? i with
    | some w => .ok w
    | Option.none => .error (.indexError "list index out of range")
  | .str s =>
    match s.toList.get? i with
    | some c => .ok (.str (String.mk [c]))
    | Option.none => .error (.indexError "string index out of range")
  | .dict _ => .error (.keyError (toString i))
  | v => .error (.typeError
      ("'" ++ v.typeName ++ "' object is not subscriptable"))

/-! ## Genius extraction (`artist_data/extract/genius_extract.py`) -/

/-- The external `lyricsgenius.Genius` client handle, as the spec's
"Provider Client A" capability: `search_artist(name, max_songs)` either
raises, returns no artist (`None`, the not-found answer of the library), or
returns an artist object rendered here by its `to_dict()` value. -/
structure GeniusClient : Type where
  search_artist : String → Nat → Except PyErr (Option Value)

/-- Whether an exception is one of the custom exception classes of
`genius_extract.py` (`GeniusAPIError` and its subclasses
`ArtistNotFoundError` and `TrackDataError`), i.e. is caught by
`except (GeniusAPIError, ArtistNotFoundError, TrackDataError)`. -/
def PyErr.isGeniusDomain : PyErr → Bool
  | .geniusAPIError _ => true
  | .artistNotFoundError _ => true
  | .trackDataError _ => true
  | _ => false

/-- `genius_artist_search(genius_client, artist_name, n_tracks)`: inside a
`try`, call the client; if it returns no artist or the returned name differs
from the query, raise `ArtistNotFoundError`; otherwise return the artist
dict.  The surrounding `except Exception` converts every exception escaping
the `try` body — including the `ArtistNotFoundError` just raised — into a
fresh `GeniusAPIError` wrapping its message. -/
def genius_artist_search (client : GeniusClient) (artist_name : String)
    (n_tracks : Nat) : Except PyErr Value :=
  let body : Except PyErr Value := do
    let artist ← client.search_artist artist_name n_tracks
    match artist with
    | Option.none =>
      .error (.artistNotFoundError
        ("Artist '" ++ artist_name ++ "' not found on Genius."))
    | some a => do
      let nm ← safe_get a "name" UNKNOWN_VALUE
      if nm = .str artist_name then .ok a
      else
        .error (.artistNotFoundError
          ("Artist '" ++ artist_name ++ "' not found on Genius."))
  match body with
  | .ok v => .ok v
  | .error e =>
    .error (.geniusAPIError
      ("Error fetching artist '" ++ artist_name ++ "' from Genius API: "
        ++ e.msg))

/-- The list comprehension
`[safe_get(a, 'name') for a in primary_artists if safe_get(a, 'name') != primary_artist]`
of `build_genius_artist_track`. -/
def collect_secondary (primary : Value) :
    List Value → Except PyErr (List Value)
  | [] => .ok []
  | a :: rest => do
    let n ← safe_get a "name" UNKNOWN_VALUE
    let tail ← collect_secondary primary rest
    if n = primary then .ok tail else .ok (n :: tail)

/-- `build_genius_artist_track(genius_artist_track)`: return `None` for the
empty dict; otherwise, inside a `try`, extract every field with
`safe_get`/`safe_extract` and assemble the flat track record; any exception
is re-raised as `TrackDataError` wrapping its message. -/
def build_genius_artist_track (t : Value) : Except PyErr Value :=
  if t = .dict [] then .ok .none
  else
    let body : Except PyErr Value := do
      let primary_artist ← safe_extract t ["primary_artist", "name"]
        UNKNOWN_VALUE
      let primary_artists ← safe_get t "primary_artists" (.list [])
      let track_id ← safe_get t "id" UNKNOWN_VALUE
      let title ← safe_get t "title" UNKNOWN_VALUE
      let release_date ← safe_get t "release_date" UNKNOWN_VALUE
      let album ← safe_get t "album" UNKNOWN_VALUE
      let api_path ← safe_get t "api_path" UNKNOWN_VALUE
      let pageviews ← safe_extract t ["stats", "pageviews"] UNKNOWN_VALUE
      let url ← safe_get t "url" UNKNOWN_VALUE
      let image_url ← safe_get t "song_art_image_url" UNKNOWN_VALUE
      let language ← safe_get t "language" UNKNOWN_VALUE
      let description ← safe_extract t ["description", "plain"] UNKNOWN_VALUE
      let lyrics ← safe_get t "lyrics" UNKNOWN_VALUE
      let lyrics_state ← safe_get t "lyrics_state" UNKNOWN_VALUE
      let pas ← toIterable primary_artists
      let secondary ← collect_secondary primary_artist pas
      let featured ← safe_get t "featured_artists" (.list [])
      .ok (.dict [
        ("genius_track_id", track_id),
        ("genius_title", title),
        ("genius_release_date", release_date),
        ("genius_album", album),
        ("genius_track_api_path", api_path),
        ("genius_pageviews", pageviews),
        ("genius_track_url", url),
        ("genius_track_image_url", image_url),
        ("genius_track_language", language),
        ("genius_track_description", description),
        ("genius_lyrics", lyrics),
        ("genius_lyrics_is_complete", lyrics_state),
        ("primary_artist", primary_artist),
        ("primary_artists", .list secondary),
        ("genius_featured_artists", featured)])
    match body with
    | .ok v => .ok v
    | .error e =>
      .error (.trackDataError
        ("Error occurred while building track data: " ++ e.msg))

/-- `build_genius_artist_data(genius_artist_search_result)`: inside a `try`,
extract the artist fields with `safe_get`/`safe_extract` and build one track
record per element of `songs` (default `{}`, so a missing `songs` iterates
nothing); any exception is re-raised as `TrackDataError` wrapping its
message. -/
def build_genius_artist_data (res : Value) : Except PyErr Value :=
  let body : Except PyErr Value := do
    let artist_id ← safe_get res "id" UNKNOWN_VALUE
    let name ← safe_get res "name" UNKNOWN_VALUE
    let alternate_names ← safe_get res "alternate_names" (.list [])
    let api_path ← safe_get res "api_path" UNKNOWN_VALUE
    let url ← safe_get res "url" UNKNOWN_VALUE
    let image_url ← safe_get res "image_url" UNKNOWN_VALUE
    let description ← safe_extract res ["description", "plain"] UNKNOWN_VALUE
    let twitter_name ← safe_get res "twitter_name" UNKNOWN_VALUE
    let facebook_name ← safe_get res "facebook_name" UNKNOWN_VALUE
    let instagram_name ← safe_get res "instagram_name" UNKNOWN_VALUE
    let is_verified ← safe_get res "is_verified" UNKNOWN_VALUE
    let songsV ← safe_get res "songs" (.dict [])
    let songs ← toIterable songsV
    let tracks ← songs.mapM build_genius_artist_track
    .ok (.dict [
      ("genius_artist_id", artist_id),
      ("genius_artist_name", name),
      ("genius_alternate_names", alternate_names),
      ("genius_artist_api_path", api_path),
      ("genius_artist_url", url),
      ("genius_artist_image_url", image_url),
      ("genius_artist_description", description),
      ("genius_twitter_name", twitter_name),
      ("genius_facebook_name", facebook_name),
      ("genius_instagram_name", instagram_name),
      ("genius_is_verified", is_verified),
      ("genius_tracks", .list tracks)])
  match body with
  | .ok v => .ok v
  | .error e =>
    .error (.trackDataError
      ("Error occurred while building artist data: " ++ e.msg))

/-- The `try` body of `fetch_genius_artist_data`: search, build the combined
artist dictionary, and return `{'artist_data': <all fields except
genius_tracks>, 'artist_tracks': safe_get(data, 'genius_tracks', {})}`. -/
def fetch_genius_body (client : GeniusClient) (artist_name : String)
    (n_tracks : Nat) : Except PyErr Value := do
  let genius_artist ← genius_artist_search client artist_name n_tracks
  let gad ← build_genius_artist_data genius_artist
  let artistData ←
    match gad with
    | .dict es => .ok (Value.dict (es.filter (fun p => p.1 ≠ "genius_tracks")))
    | v => .error (.attributeError
        ("'" ++ v.typeName ++ "' object has no attribute 'items'"))
  let tracks ← safe_get gad "genius_tracks" (.dict [])
  .ok (.dict [("artist_data", artistData), ("artist_tracks", tracks)])

/-- `fetch_genius_artist_data(genius_client, artist_name, n_tracks)`: run the
fetch pipeline; `except (GeniusAPIError, ArtistNotFoundError,
TrackDataError)` re-raises those unchanged, and `except Exception` wraps any
other exception as `GeniusAPIError('Unexpected error: ...')`. -/
def fetch_genius_artist_data (client : GeniusClient) (artist_name : String)
    (n_tracks : Nat) : Except PyErr Value :=
  match fetch_genius_body client artist_name n_tracks with
  | .ok v => .ok v
  | .error e =>
    if e.isGeniusDomain then .error e
    else .error (.geniusAPIError ("Unexpected error: " ++ e.msg))

/-! ## Spotify extraction (`artist_data/extract/spotify_extract.py`) -/

/-- The external `spotipy.Spotify` client handle, as the spec's
"Provider Client B" capability set.  Each field models one endpoint call and
returns the raw response value (or raises). -/
structure SpotifyClient : Type where
  search : String → String → Except PyErr Value
  artist_related_artists : Value → Except PyErr Value
  artist_albums : Value → String → Nat → Except PyErr Value
  next : Value → Except PyErr Value
  album_tracks : Value → Except PyErr Value
  audio_features : Value → Except PyErr Value

/-- `spotify_artist_search(spotify_client, artist_name)`: take
`safe_extract(client.search(artist_name, type='artist'), ['artists',
'items'], None)`; if the result is truthy return its first element,
otherwise raise `ValueError`. -/
def spotify_artist_search (client : SpotifyClient) (artist_name : String) :
    Except PyErr Value := do
  let resp ← client.search artist_name "artist"
  let r ← safe_extract resp ["artists", "items"] .none
  if r.truthy then pyIndex r 0
  else .error (.valueError
    ("No artist found with the name '" ++ artist_name ++ "'"))

/-- `build_spotify_artist_data(spotify_client, spotify_artist_search_result)`:
assemble the flat artist record.  Every field but one goes through the safe
accessors; the image URL is computed as
`safe_get(safe_get(result, 'images')[0], 'url')` — a direct `[0]` on the raw
`images` value — and the related-artist names iterate the `artists` field of
a further client call.  There is no surrounding `try`. -/
def build_spotify_artist_data (client : SpotifyClient) (res : Value) :
    Except PyErr Value := do
  let artist_id ← safe_get res "id" UNKNOWN_VALUE
  let name ← safe_get res "name" UNKNOWN_VALUE
  let uri ← safe_get res "uri" UNKNOWN_VALUE
  let href ← safe_get res "href" UNKNOWN_VALUE
  let images ← safe_get res "images" UNKNOWN_VALUE
  let image0 ← pyIndex images 0
  let image_url ← safe_get image0 "url" UNKNOWN_VALUE
  let followers ← safe_extract res ["followers", "total"] UNKNOWN_VALUE
  let popularity ← safe_get res "popularity" UNKNOWN_VALUE
  let genres ← safe_get res "genres" UNKNOWN_VALUE
  let rel ← client.artist_related_artists artist_id
  let relArtists ← safe_get rel "artists" UNKNOWN_VALUE
  let relElems ← toIterable relArtists
  let relNames ← relElems.mapM (fun a => safe_get a "name" UNKNOWN_VALUE)
  .ok (.dict [
    ("spotify_artist_id", artist_id),
    ("spotify_artist_name", name),
    ("spotify_artist_uri_path", uri),
    ("spotify_artist_url", href),
    ("spotify_artist_image_url", image_url),
    ("spotify_artist_n_followers", followers),
    ("spotify_popularity", popularity),
    ("spotify_artist_genres", genres),
    ("spotify_related_artists", .list relNames)])

/-- The shared pagination `while results:` loop of `get_artist_albums` and
`get_album_tracks` (the two functions repeat the identical loop text):
extend the accumulator with `results['items']`; if `results['next']` is
truthy fetch `client.next(results)` and continue, else stop.  The loop is
unbounded in Python; here a fuel argument bounds it, with exhaustion
reported as the modelling-only error `fuelExhausted`. -/
def page_loop (client : SpotifyClient) :
    Nat → Value → List Value → Except PyErr (List Value)
  | 0, _, _ => .error (.fuelExhausted "pagination loop did not terminate")
  | Nat.succ fuel, results, acc =>
    if results.truthy then do
      let items ← getItem results "items"
      let elems ← toIterable items
      let nxt ← getItem results "next"
      if nxt.truthy then do
        let r2 ← client.next results
        page_loop client fuel r2 (acc ++ elems)
      else .ok (acc ++ elems)
    else .ok acc

/-- The deduplication dict comprehension
`{album['id']: album for album in albums}` of `get_artist_albums`, built by
repeated assignment into an initially empty dict: a later item with an
already-seen id overwrites the stored item in place (first-insertion
position, last-written value). -/
def build_id_map : List (Value × Value) → List Value →
    Except PyErr (List (Value × Value))
  | m, [] => .ok m
  | m, a :: rest => do
    let k ← getItem a "id"
    build_id_map (dictSet m k a) rest

/-- `list({album['id']: album for album in albums}.values())`. -/
def dedup_by_id (albums : List Value) : Except PyErr (List Value) := do
  let m ← build_id_map [] albums
  .ok (m.map (fun p => p.2))

/-- `get_artist_albums(spotify_client, artist_id, album_types)`: fetch the
first page with `client.artist_albums(artist_id,
album_type=','.join(album_types), limit=50)`, accumulate all pages, then
deduplicate by album id and return the values as a list. -/
def get_artist_albums (client : SpotifyClient) (artist_id : Value)
    (album_types : List String) (fuel : Nat) : Except PyErr (List Value) := do
  let results ← client.artist_albums artist_id
    (String.intercalate "," album_types) 50
  let albums ← page_loop client fuel results []
  dedup_by_id albums

/-- `get_album_tracks(spotify_client, album_id)`: fetch the first page with
`client.album_tracks(album_id)`, accumulate all pages, and return the
accumulated track list (no deduplication step). -/
def get_album_tracks (client : SpotifyClient) (album_id : Value)
    (fuel : Nat) : Except PyErr (List Value) := do
  let results ← client.album_tracks album_id
  page_loop client fuel results []

/-- `{**track, 'spotify_album_id': album_id}`: splat a track mapping and add
one key; a non-mapping operand raises `TypeError`. -/
def dictSplat (track : Value) (k : String) (v : Value) : Except PyErr Value :=
  match track with
  | .dict es => .ok (.dict (dictSet es k v))
  | t => .error (.typeError
      ("'" ++ t.typeName ++ "' object is not a mapping"))

/-- The `for album in albums` body of `get_all_tracks_of_artist`: look up the
album id with `safe_get`, fetch the album's tracks, tag each with
`spotify_album_id`, and extend the running list. -/
def all_tracks_loop (client : SpotifyClient) (fuel : Nat) :
    List Value → List Value → Except PyErr (List Value)
  | [], acc => .ok acc
  | album :: rest, acc => do
    let album_id ← safe_get album "id" UNKNOWN_VALUE
    let tracks ← get_album_tracks client album_id fuel
    let tagged ← tracks.mapM (fun t => dictSplat t "spotify_album_id" album_id)
    all_tracks_loop client fuel rest (acc ++ tagged)

/-- `get_all_tracks_of_artist(spotify_client, artist_id)`: all albums (with
the default `['album', 'single']` types), then every album's tracks tagged
with their album id. -/
def get_all_tracks_of_artist (client : SpotifyClient) (artist_id : Value)
    (fuel : Nat) : Except PyErr (List Value) := do
  let albums ← get_artist_albums client artist_id ["album", "single"] fuel
  all_tracks_loop client fuel albums []

/-- The per-track record assembly inside `build_spotify_artist_tracks`: all
plain fields via `safe_get`, and
`client.audio_features(safe_get(track, 'id'))[0]` when the id is not the
sentinel, `{}` otherwise. -/
def build_spotify_track (client : SpotifyClient) (spotify_artist_id : Value)
    (track : Value) : Except PyErr Value := do
  let track_id ← safe_get track "id" UNKNOWN_VALUE
  let name ← safe_get track "name" UNKNOWN_VALUE
  let uri ← safe_get track "uri" UNKNOWN_VALUE
  let href ← safe_get track "href" UNKNOWN_VALUE
  let track_number ← safe_get track "track_number" UNKNOWN_VALUE
  let album_id ← safe_get track "spotify_album_id" UNKNOWN_VALUE
  let features ←
    if track_id ≠ UNKNOWN_VALUE then do
      let af ← client.audio_features track_id
      pyIndex af 0
    else .ok (.dict [])
  .ok (.dict [
    ("spotify_artist_id", spotify_artist_id),
    ("spotify_track_id", track_id),
    ("spotify_track_name", name),
    ("spotify_track_uri", uri),
    ("spotify_track_url", href),
    ("track_number", track_number),
    ("spotify_album_id", album_id),
    ("track_audio_features_spotify", features)])

/-- `build_spotify_artist_tracks(spotify_client, spotify_artist_id)`: build
one record per track of the artist, then flatten each record's nested
`track_audio_features_spotify` sub-dict into it. -/
def build_spotify_artist_tracks (client : SpotifyClient)
    (spotify_artist_id : Value) (fuel : Nat) : Except PyErr (List Value) := do
  let tracks ← get_all_tracks_of_artist client spotify_artist_id fuel
  let built ← tracks.mapM (build_spotify_track client spotify_artist_id)
  built.mapM (fun t => flat_nested_dictionary t "track_audio_features_spotify")

/-- `fetch_spotify_artist_data(spotify_client, artist_name)`: search, build
the artist record, build the track records for
`spotify_artist_data['spotify_artist_id']`, and return
`{'artist_data': ..., 'artist_tracks': ...}`.  The function has no
`try`/`except` of its own: every exception propagates to the caller
unchanged. -/
def fetch_spotify_artist_data (client : SpotifyClient) (artist_name : String)
    (fuel : Nat) : Except PyErr Value := do
  let res ← spotify_artist_search client artist_name
  let artistData ← build_spotify_artist_data client res
  let aid ← getItem artistData "spotify_artist_id"
  let tracks ← build_spotify_artist_tracks client aid fuel
  .ok (.dict [("artist_data", artistData), ("artist_tracks", .list tracks)])

/-! ## Specification-side helper functions -/

/-- Spec-side identifier of a paged item: its `id` entry when the item is a
dict, nothing otherwise. -/
def idOfD : Value → Option Value
  | .dict es => lookupKV "id" es
  | _ => Option.none

/-- Spec-side: the last element of a list whose `id` is `k` ("last write
wins" pick among duplicates). -/
def lastWithId (k : Value) : List Value → Option Value
  | [] => Option.none
  | a :: rest =>
    match lastWithId k rest with
    | some b => some b
    | Option.none => if idOfD a = some k then some a else Option.none

/-- Spec-side name of a listed artist entry: its `name` entry when it is a
dict, else the sentinel — the value `safe_get(artist, 'name')` produces on a
dict entry. -/
def artistName (a : Value) : Value :=
  match a with
  | .dict es => (lookupKV "name" es).getD UNKNOWN_VALUE
  | _ => UNKNOWN_VALUE

/-- The raw-response keys that `build_genius_artist_track` reads. -/
def geniusTrackKeys : List String :=
  ["id", "title", "release_date", "album", "api_path", "stats", "url",
   "song_art_image_url", "language", "description", "lyrics", "lyrics_state",
   "primary_artist", "primary_artists", "featured_artists"]

/-- The track record built from a non-empty raw track dict carrying none of
the expected keys: every scalar field degrades to the sentinel and the list
fields to empty lists. -/
def allUnknownGeniusTrack : Value :=
  .dict [
    ("genius_track_id", UNKNOWN_VALUE),
    ("genius_title", UNKNOWN_VALUE),
    ("genius_release_date", UNKNOWN_VALUE),
    ("genius_album", UNKNOWN_VALUE),
    ("genius_track_api_path", UNKNOWN_VALUE),
    ("genius_pageviews", UNKNOWN_VALUE),
    ("genius_track_url", UNKNOWN_VALUE),
    ("genius_track_image_url", UNKNOWN_VALUE),
    ("genius_track_language", UNKNOWN_VALUE),
    ("genius_track_description", UNKNOWN_VALUE),
    ("genius_lyrics", UNKNOWN_VALUE),
    ("genius_lyrics_is_complete", UNKNOWN_VALUE),
    ("primary_artist", UNKNOWN_VALUE),
    ("primary_artists", .list []),
    ("genius_featured_artists", .list [])]

/-! ## Concrete fixtures used by counterexamples and witnesses -/

/-- A Genius client whose search returns an artist whose name (`"Other"`)
differs from any queried name such as `"Test"`. -/
def mismatchGeniusClient : GeniusClient :=
  ⟨fun _ _ => .ok (some (.dict [("name", .str "Other")]))⟩

/-- A Genius client returning an artist named `"Test"` whose `songs` list
contains one empty mapping. -/
def emptySongGeniusClient : GeniusClient :=
  ⟨fun _ _ => .ok (some (.dict
    [("name", .str "Test"), ("songs", .list [.dict []])]))⟩

/-- A Genius client whose search raises an unexpected (non-domain)
exception. -/
def errGeniusClient : GeniusClient :=
  ⟨fun _ _ => .error (.otherError "connection reset")⟩

/-- A Spotify client whose every endpoint returns `None`; used where the
evaluation under test fails before reaching the client. -/
def stubSpotifyClient : SpotifyClient :=
  ⟨fun _ _ => .ok .none, fun _ => .ok .none, fun _ _ _ => .ok .none,
   fun _ => .ok .none, fun _ => .ok .none, fun _ => .ok .none⟩

/-- A Spotify client whose search raises an unexpected exception. -/
def boomSpotifyClient : SpotifyClient :=
  ⟨fun _ _ => .error (.otherError "boom"), fun _ => .ok .none,
   fun _ _ _ => .ok .none, fun _ => .ok .none, fun _ => .ok .none,
   fun _ => .ok .none⟩

/-- A page object `{'items': items, 'next': nxt}`. -/
def mkPage (items : List Value) (nxt : Value) : Value :=
  .dict [("items", .list items), ("next", nxt)]

/-- Albums for the three-page pagination scenario of the spec: the id `"a"`
occurs on page 1 and again, with different payload, on page 3. -/
def albumA1 : Value := .dict [("id", .str "a"), ("v", .int 1)]

def albumB : Value := .dict [("id", .str "b"), ("v", .int 2)]

def albumC : Value := .dict [("id", .str "c"), ("v", .int 3)]

def albumD : Value := .dict [("id", .str "d"), ("v", .int 4)]

def albumA3 : Value := .dict [("id", .str "a"), ("v", .int 5)]

def albumE : Value := .dict [("id", .str "e"), ("v", .int 6)]

def albumsPage1 : Value := mkPage [albumA1, albumB] (.str "p2")

def albumsPage2 : Value := mkPage [albumC, albumD] (.str "p3")

def albumsPage3 : Value := mkPage [albumA3, albumE] .none

/-- A Spotify client serving the three album pages in sequence. -/
def threePageSpotifyClient : SpotifyClient :=
  ⟨fun _ _ => .ok .none, fun _ => .ok .none,
   fun _ _ _ => .ok albumsPage1,
   fun p =>
     if p = albumsPage1 then .ok albumsPage2
     else if p = albumsPage2 then .ok albumsPage3
     else .ok .none,
   fun _ => .ok albumsPage1, fun _ => .ok .none⟩

/-- Two distinct tracks sharing the id `"x"`. -/
def trackX1 : Value := .dict [("id", .str "x"), ("v", .int 1)]

def trackX2 : Value := .dict [("id", .str "x"), ("v", .int 2)]

/-- A Spotify client whose album-tracks endpoint serves one page holding two
tracks with the same id. -/
def dupTrackSpotifyClient : SpotifyClient :=
  ⟨fun _ _ => .ok .none, fun _ => .ok .none, fun _ _ _ => .ok .none,
   fun _ => .ok .none, fun _ => .ok (mkPage [trackX1, trackX2] .none),
   fun _ => .ok .none⟩

/-- The listed primary artists of the spec's end-to-end scenario track. -/
def geniusSpecArtists : List Value :=
  [.dict [("name", .str "Test")], .dict [("name", .str "Feat")]]

/-- The entries of the raw track of the spec's end-to-end scenario: primary
artist named `"Test"`, listed primary artists named `"Test"` and
`"Feat"`. -/
def geniusSpecTrackEntries : List (String × Value) :=
  [("id", .int 10), ("title", .str "A"),
    ("primary_artist", .dict [("name", .str "Test")]),
    ("primary_artists", .list geniusSpecArtists)]

/-- The raw track of the spec's end-to-end scenario. -/
def geniusSpecTrack : Value := .dict geniusSpecTrackEntries

/-! ## Basic lemmas about the embedding -/

theorem pybind_ok {α β : Type} (a : α) (f : α → Except PyErr β) :
    (Except.ok a >>= f : Except PyErr β) = f a := rfl

theorem pybind_error {α β : Type} (e : PyErr) (f : α → Except PyErr β) :
    (Except.error e >>= f : Except PyErr β) = Except.error e := rfl

theorem lookupKV_eq_none {κ α : Type} [DecidableEq κ] {k : κ}
    {d : List (κ × α)} :
    lookupKV k d = Option.none ↔ ∀ p ∈ d, p.1 ≠ k := by
  induction d with
  | nil => simp [lookupKV]
  | cons p rest ih =>
    by_cases h : p.1 = k <;> simp [lookupKV, h, ih]

theorem lookupKV_dictSet_self {κ α : Type} [DecidableEq κ]
    (d : List (κ × α)) (k : κ) (v : α) :
    lookupKV k (dictSet d k v) = some v := by
  induction d with
  | nil => simp [dictSet, lookupKV]
  | cons p rest ih =>
    by_cases h : p.1 = k <;> simp [dictSet, lookupKV, h, ih]

theorem lookupKV_dictSet_ne {κ α : Type} [DecidableEq κ]
    (d : List (κ × α)) (k k' : κ) (v : α) (h : k' ≠ k) :
    lookupKV k' (dictSet d k v) = lookupKV k' d := by
  induction d with
  | nil => simp [dictSet, lookupKV, Ne.symm h]
  | cons p rest ih =>
    by_cases hp : p.1 = k
    · simp [dictSet, lookupKV, hp, Ne.symm h]
    · simp [dictSet, lookupKV, hp, ih]

theorem mem_dictSet {κ α : Type} [DecidableEq κ]
    {d : List (κ × α)} {k : κ} {v : α} {p : κ × α}
    (h : p ∈ dictSet d k v) : p ∈ d ∨ p = (k, v) := by
  induction d with
  | nil => simp [dictSet] at h; exact .inr h
  | cons q rest ih =>
    by_cases hq : q.1 = k
    · rw [dictSet, if_pos hq] at h
      rcases List.mem_cons.mp h with h | h
      · exact .inr h
      · exact .inl (List.mem_cons_of_mem q h)
    · rw [dictSet, if_neg hq] at h
      rcases List.mem_cons.mp h with h | h
      · exact .inl (h ▸ List.mem_cons_self q rest)
      · rcases ih h with h | h
        · exact .inl (List.mem_cons_of_mem q h)
        · exact .inr h

theorem mem_keys_dictSet {κ α : Type} [DecidableEq κ]
    {d : List (κ × α)} {k a : κ} {v : α}
    (h : a ∈ (dictSet d k v).map Prod.fst) :
    a ∈ d.map Prod.fst ∨ a = k := by
  rcases List.mem_map.mp h with ⟨p, hp, hpa⟩
  rcases mem_dictSet hp with h | h
  · exact .inl (hpa ▸ List.mem_map_of_mem Prod.fst h)
  · subst h; exact .inr hpa.symm

theorem nodup_keys_dictSet {κ α : Type} [DecidableEq κ]
    (d : List (κ × α)) (k : κ) (v : α)
    (h : (d.map Prod.fst).Nodup) :
    ((dictSet d k v).map Prod.fst).Nodup := by
  induction d with
  | nil => simp [dictSet]
  | cons p rest ih =>
    rw [List.map_cons, List.nodup_cons] at h
    by_cases hp : p.1 = k
    · rw [dictSet, if_pos hp, List.map_cons, List.nodup_cons]
      exact ⟨hp ▸ h.1, h.2⟩
    · rw [dictSet, if_neg hp, List.map_cons, List.nodup_cons]
      refine ⟨fun hmem => ?_, ih h.2⟩
      rcases mem_keys_dictSet hmem with hmem | hmem
      · exact h.1 hmem
      · exact hp hmem

theorem dictUpdate_nil {κ α : Type} [DecidableEq κ] (d : List (κ × α)) :
    dictUpdate d [] = d := rfl

theorem dictUpdate_cons {κ α : Type} [DecidableEq κ]
    (d ns : List (κ × α)) (p : κ × α) :
    dictUpdate d (p :: ns) = dictUpdate (dictSet d p.1 p.2) ns := rfl

theorem lookupKV_dictUpdate_of_none {κ α : Type} [DecidableEq κ]
    (ns : List (κ × α)) (d : List (κ × α)) (k : κ)
    (h : lookupKV k ns = Option.none) :
    lookupKV k (dictUpdate d ns) = lookupKV k d := by
  induction ns generalizing d with
  | nil => rfl
  | cons p rest ih =>
    rw [lookupKV] at h
    by_cases hp : p.1 = k
    · simp [hp] at h
    · rw [if_neg hp] at h
      rw [dictUpdate_cons, ih _ h,
        lookupKV_dictSet_ne _ _ _ _ (fun he => hp he.symm)]

theorem lookupKV_dictUpdate_of_some {κ α : Type} [DecidableEq κ]
    (ns : List (κ × α)) (d : List (κ × α)) (k : κ) (v : α)
    (hnd : (ns.map Prod.fst).Nodup) (h : lookupKV k ns = some v) :
    lookupKV k (dictUpdate d ns) = some v := by
  induction ns generalizing d with
  | nil => simp [lookupKV] at h
  | cons p rest ih =>
    rw [List.map_cons, List.nodup_cons] at hnd
    rw [lookupKV] at h
    by_cases hp : p.1 = k
    · rw [if_pos hp] at h
      injection h with h; subst h; subst hp
      have hnone : lookupKV p.1 rest = Option.none :=
        lookupKV_eq_none.mpr (fun q hq he =>
          hnd.1 (he ▸ List.mem_map_of_mem Prod.fst hq))
      rw [dictUpdate_cons, lookupKV_dictUpdate_of_none _ _ _ hnone,
        lookupKV_dictSet_self]
    · rw [if_neg hp] at h
      rw [dictUpdate_cons, ih _ hnd.2 h]

theorem lookupKV_dictPop_self {κ α : Type} [DecidableEq κ]
    (d : List (κ × α)) (k : κ) :
    lookupKV k (dictPop d k) = Option.none := by
  induction d with
  | nil => rfl
  | cons p rest ih =>
    by_cases hp : p.1 = k
    · simpa [dictPop, List.filter_cons, hp] using ih
    · simpa [dictPop, List.filter_cons, hp, lookupKV] using ih

theorem lookupKV_dictPop_ne {κ α : Type} [DecidableEq κ]
    (d : List (κ × α)) (k k' : κ) (h : k' ≠ k) :
    lookupKV k' (dictPop d k) = lookupKV k' d := by
  induction d with
  | nil => rfl
  | cons p rest ih =>
    by_cases hp : p.1 = k
    · have h1 : p.1 ≠ k' := fun he => h (he.symm.trans hp)
      have hl : dictPop (p :: rest) k = dictPop rest k := by
        simp [dictPop, List.filter_cons, hp]
      rw [hl, ih]
      simp only [lookupKV, if_neg h1]
    · have hl : dictPop (p :: rest) k = p :: dictPop rest k := by
        simp [dictPop, List.filter_cons, hp]
      rw [hl]
      simp only [lookupKV]
      by_cases hp' : p.1 = k' <;> simp [hp', ih]

theorem dictPop_eq_self {κ α : Type} [DecidableEq κ]
    {d : List (κ × α)} {k : κ} (h : lookupKV k d = Option.none) :
    dictPop d k = d :=
  List.filter_eq_self.mpr (fun p hp => by
    simpa using lookupKV_eq_none.mp h p hp)

/-! ## Lemmas about the safe accessors -/

theorem safe_get_dict (es : List (String × Value)) (k : String) (u : Value) :
    safe_get (.dict es) k u = .ok ((lookupKV k es).getD u) := rfl

theorem extract_value_loop_cons (u value : Value) (k : String)
    (ks : List String) :
    extract_value_loop u value (k :: ks) =
      (safe_get value k u >>= fun v =>
        if v = u then .ok v else extract_value_loop u v ks) := rfl

theorem extract_value_nil (m u : Value) :
    extract_value m [] u = .ok (if m.truthy then m else u) := rfl

theorem extract_value_cons_hit (es : List (String × Value)) (k : String)
    (ks : List String) (u : Value) (h : (lookupKV k es).getD u = u) :
    extract_value (.dict es) (k :: ks) u = .ok u := by
  unfold extract_value
  rw [extract_value_loop_cons, safe_get_dict, h, pybind_ok, if_pos rfl]
  simp

theorem extract_value_cons_of_ne (es : List (String × Value)) (k : String)
    (ks : List String) (u w : Value) (hl : lookupKV k es = some w)
    (hw : w ≠ u) :
    extract_value (.dict es) (k :: ks) u = extract_value w ks u := by
  unfold extract_value
  rw [extract_value_loop_cons, safe_get_dict, hl]
  simp only [Option.getD_some, pybind_ok, if_neg hw]

theorem extract_value_cons_nondict (m : Value)
    (hm : ∀ es, m ≠ .dict es) (k : String) (ks : List String) (u : Value) :
    extract_value m (k :: ks) u = .ok u := by
  cases m with
  | dict es => exact absurd rfl (hm es)
  | none => rfl
  | bool b => rfl
  | int n => rfl
  | str s => rfl
  | list l => rfl

theorem extract_value_of_falsy (m : Value) (hm : m.truthy = false)
    (p : List String) (u : Value) :
    extract_value m p u = .ok u := by
  cases p with
  | nil => rw [extract_value_nil, hm]; simp
  | cons k ks =>
    cases m with
    | dict es =>
      have hes : es = [] := by
        cases es with
        | nil => rfl
        | cons q r => simp [Value.truthy] at hm
      subst hes
      exact extract_value_cons_hit [] k ks u rfl
    | none => rfl
    | bool b => rfl
    | int n => rfl
    | str s => rfl
    | list l => rfl

theorem extract_value_of_falsy_prefix :
    ∀ (q : List String) (m : Value) (t p : List String) (v : Value),
      q ++ t = p → resolve m q = some v → v.truthy = false →
      extract_value m p UNKNOWN_VALUE = .ok UNKNOWN_VALUE := by
  intro q
  induction q with
  | nil =>
    intro m t p v hqt hr hv
    rw [resolve] at hr
    injection hr with hr
    subst hr
    exact extract_value_of_falsy m hv p _
  | cons k q' ih =>
    intro m t p v hqt hr hv
    cases m with
    | dict es =>
      simp only [resolve] at hr
      rcases hlk : lookupKV k es with _ | w <;> simp only [hlk] at hr
      · exact absurd hr (by simp)
      · subst hqt
        rw [List.cons_append]
        by_cases hw : w = UNKNOWN_VALUE
        · exact extract_value_cons_hit es k (q' ++ t) _ (by rw [hlk, hw]; rfl)
        · rw [extract_value_cons_of_ne es k (q' ++ t) _ w hlk hw]
          exact ih w t (q' ++ t) v rfl hr hv
    | none => simp [resolve] at hr
    | bool b => simp [resolve] at hr
    | int n => simp [resolve] at hr
    | str s => simp [resolve] at hr
    | list l => simp [resolve] at hr

theorem extract_value_loop_ok_or_attrErr :
    ∀ (p : List String) (value u : Value),
      (∃ w, extract_value_loop u value p = .ok w) ∨
      (∃ m, extract_value_loop u value p = .error (.attributeError m)) := by
  intro p
  induction p with
  | nil => intro value u; exact .inl ⟨value, rfl⟩
  | cons k ks ih =>
    intro value u
    cases value with
    | dict es =>
      rw [extract_value_loop_cons, safe_get_dict, pybind_ok]
      by_cases h : (lookupKV k es).getD u = u
      · rw [if_pos h]; exact .inl ⟨_, rfl⟩
      · rw [if_neg h]; exact ih _ u
    | none => exact .inr ⟨_, rfl⟩
    | bool b => exact .inr ⟨_, rfl⟩
    | int n => exact .inr ⟨_, rfl⟩
    | str s => exact .inr ⟨_, rfl⟩
    | list l => exact .inr ⟨_, rfl⟩

theorem extract_value_isOk (data : Value) (p : List String) (u : Value) :
    (extract_value data p u).isOk = true := by
  rcases extract_value_loop_ok_or_attrErr p data u with ⟨w, hw⟩ | ⟨m, hm⟩
  · unfold extract_value; rw [hw]; rfl
  · unfold extract_value; rw [hm]; rfl

/-! ## Claim C1 -/

/-- C1: for every mapping `m` and key path `p`, if the plain traversal of
any step of `p` over `m` (a prefix of `p`, including `p` itself) resolves to
a falsy value — empty string, empty list/dict, `0`, `False`, `None` — then
`extract_value(m, p)` with the default sentinel returns `UNKNOWN_VALUE`
rather than that falsy value, and so does its wrapper `safe_extract`. -/
theorem c1_extract_falsy_returns_sentinel
    (m : Value) (p q : List String) (v : Value)
    (hpre : ∃ t, q ++ t = p) (hres : resolve m q = some v)
    (hfalsy : v.truthy = false) :
    extract_value m p UNKNOWN_VALUE = .ok UNKNOWN_VALUE ∧
    safe_extract m p UNKNOWN_VALUE = .ok UNKNOWN_VALUE := by
  obtain ⟨t, ht⟩ := hpre
  have h := extract_value_of_falsy_prefix q m t p v ht hres hfalsy
  exact ⟨h, h⟩

/-- Witness for C1: `{'a': 0}` traversed along `['a', 'b']` hits the falsy
intermediate value `0` at prefix `['a']`, and `extract_value` returns the
sentinel. -/
theorem c1_extract_falsy_returns_sentinel_witness :
    (∃ t, ["a"] ++ t = ["a", "b"]) ∧
    resolve (.dict [("a", .int 0)]) ["a"] = some (.int 0) ∧
    (Value.int 0).truthy = false ∧
    (extract_value (.dict [("a", .int 0)]) ["a", "b"] UNKNOWN_VALUE
        = .ok UNKNOWN_VALUE ∧
      safe_extract (.dict [("a", .int 0)]) ["a", "b"] UNKNOWN_VALUE
        = .ok UNKNOWN_VALUE) :=
  ⟨⟨["b"], rfl⟩, rfl, rfl,
    c1_extract_falsy_returns_sentinel (.dict [("a", .int 0)]) ["a", "b"]
      ["a"] (.int 0) ⟨["b"], rfl⟩ rfl rfl⟩

/-! ## Claim C8 -/

/-- C8 counterexample: the claim fails for unhashable key types.  `dict.get`
hashes its key, so `safe_get({}, [])` raises
`TypeError: unhashable type: 'list'`, and the same `TypeError` raised inside
`extract_value`'s traversal is not caught by its `except AttributeError`
clause and propagates — both functions do raise for some key types. -/
theorem c8_unhashable_key_raises_counterexample :
    safe_get_anyKey (.dict []) (.list []) UNKNOWN_VALUE =
      .error (.typeError "unhashable type: 'list'") ∧
    extract_value_anyKey (.dict [("a", .int 1)]) [.list []] UNKNOWN_VALUE =
      .error (.typeError "unhashable type: 'list'") :=
  ⟨rfl, rfl⟩

theorem safe_get_anyKey_str (v : Value) (s : String) (u : Value) :
    safe_get_anyKey v (.str s) u = safe_get v s u := by
  cases v <;> rfl

theorem extract_value_loop_anyKey_cons (u value key : Value)
    (rest : List Value) :
    extract_value_loop_anyKey u value (key :: rest) =
      (safe_get_anyKey value key u >>= fun v =>
        if v = u then .ok v else extract_value_loop_anyKey u v rest) := rfl

theorem extract_value_loop_anyKey_str (u : Value) :
    ∀ (p : List String) (value : Value),
      extract_value_loop_anyKey u value (p.map Value.str) =
        extract_value_loop u value p := by
  intro p
  induction p with
  | nil => intro value; rfl
  | cons k ks ih =>
    intro value
    rw [List.map_cons, extract_value_loop_anyKey_cons,
      extract_value_loop_cons, safe_get_anyKey_str]
    cases h : safe_get value k u with
    | error e => rw [pybind_error, pybind_error]
    | ok w =>
      rw [pybind_ok, pybind_ok]
      by_cases hw : w = u
      · rw [if_pos hw, if_pos hw]
      · rw [if_neg hw, if_neg hw, ih]

theorem extract_value_anyKey_str (data : Value) (p : List String)
    (u : Value) :
    extract_value_anyKey data (p.map Value.str) u = extract_value data p u := by
  unfold extract_value_anyKey extract_value
  rw [extract_value_loop_anyKey_str]

theorem extract_value_loop_anyKey_ok_or_attrErr :
    ∀ (p : List Value) (value u : Value), (∀ k ∈ p, k.hashable = true) →
      (∃ w, extract_value_loop_anyKey u value p = .ok w) ∨
      (∃ m, extract_value_loop_anyKey u value p
        = .error (.attributeError m)) := by
  intro p
  induction p with
  | nil => intro value u _; exact .inl ⟨value, rfl⟩
  | cons k ks ih =>
    intro value u hh
    have hk : k.hashable = true := hh k (List.mem_cons_self k ks)
    have hks : ∀ k' ∈ ks, k'.hashable = true :=
      fun k' hk' => hh k' (List.mem_cons_of_mem k hk')
    cases value with
    | dict es =>
      have hsg : safe_get_anyKey (.dict es) k u =
          .ok ((match k with
            | .str s => lookupKV s es
            | _ => Option.none).getD u) := by
        simp [safe_get_anyKey, hk]
      rw [extract_value_loop_anyKey_cons, hsg, pybind_ok]
      by_cases h : (match k with
          | .str s => lookupKV s es
          | _ => Option.none).getD u = u
      · rw [if_pos h]; exact .inl ⟨_, rfl⟩
      · rw [if_neg h]; exact ih _ u hks
    | none => exact .inr ⟨_, rfl⟩
    | bool b => exact .inr ⟨_, rfl⟩
    | int n => exact .inr ⟨_, rfl⟩
    | str s => exact .inr ⟨_, rfl⟩
    | list l => exact .inr ⟨_, rfl⟩

/-- C8 (amended): the safe accessors never raise as long as every key is
hashable.  `safe_get` applied to a mapping, a hashable key of any type and
any default returns a value; `extract_value` applied to any value, any key
path of hashable keys and any default returns a value — absent keys, falsy
intermediates and non-mapping intermediate values all degrade to the
sentinel/default, the traversal's `AttributeError` being caught.  For an
unhashable key (list, dict), however, `dict.get` raises `TypeError`, which
`except AttributeError` does not catch, so both functions raise (see the
counterexample).  On string keys — the only key type the repository passes —
the general functions coincide with `safe_get`, `extract_value` and
`safe_extract` as modelled elsewhere in this file. -/
theorem c8_hashable_keys_never_raise :
    (∀ (es : List (String × Value)) (key u : Value),
      key.hashable = true →
      (safe_get_anyKey (.dict es) key u).isOk = true) ∧
    (∀ (data : Value) (p : List Value) (u : Value),
      (∀ k ∈ p, k.hashable = true) →
      (extract_value_anyKey data p u).isOk = true) ∧
    (∀ (data : Value) (p : List String) (u : Value),
      extract_value_anyKey data (p.map Value.str) u
        = extract_value data p u ∧
      safe_extract data p u = extract_value data p u ∧
      (extract_value data p u).isOk = true ∧
      (safe_get (.dict []) "k" u).isOk = true) := by
  refine ⟨?_, ?_, ?_⟩
  · intro es key u hk
    simp [safe_get_anyKey, hk, Except.isOk, Except.toBool]
  · intro data p u hh
    rcases extract_value_loop_anyKey_ok_or_attrErr p data u hh with
      ⟨w, hw⟩ | ⟨m, hm⟩
    · unfold extract_value_anyKey; rw [hw]; rfl
    · unfold extract_value_anyKey; rw [hm]; rfl
  · intro data p u
    exact ⟨extract_value_anyKey_str data p u, rfl,
      extract_value_isOk data p u, rfl⟩

/-- Witness for C8 (amended): a hashable non-string key (`5`) on an empty
dict degrades to the default, and a path mixing a string and an integer key
traverses without raising. -/
theorem c8_hashable_keys_never_raise_witness :
    ((Value.int 5).hashable = true) ∧
    ((safe_get_anyKey (.dict []) (.int 5) UNKNOWN_VALUE).isOk = true) ∧
    (∀ k ∈ [Value.str "a", Value.int 0], k.hashable = true) ∧
    ((extract_value_anyKey (.dict [("a", .int 1)])
      [Value.str "a", Value.int 0] UNKNOWN_VALUE).isOk = true) :=
  ⟨rfl,
   c8_hashable_keys_never_raise.1 [] (.int 5) UNKNOWN_VALUE rfl,
   by decide,
   c8_hashable_keys_never_raise.2.1 (.dict [("a", .int 1)])
     [Value.str "a", Value.int 0] UNKNOWN_VALUE (by decide)⟩

/-! ## Claim C4 -/

theorem flat_nested_dictionary_dict (es : List (String × Value))
    (k : String) :
    flat_nested_dictionary (.dict es) k =
      .ok (.dict (match (lookupKV k es).getD (.dict []) with
        | .dict ns => dictPop (dictUpdate es ns) k
        | _ => dictPop es k)) := by
  unfold flat_nested_dictionary
  rw [safe_get_dict, pybind_ok]
  rcases (lookupKV k es).getD (.dict []) with _ | b | n | s | l | ns <;> rfl

/-- C4: `flat_nested_dictionary(record, key)` on a record dict: the result
is a dict in which `key` is always absent — whether `record[key]` held a
mapping, a non-mapping, or nothing; when `record[key]` is a mapping, its
entries are merged in, a nested entry overriding a same-named record entry
and record entries surviving otherwise; when `record[key]` is a non-mapping
the other entries are untouched (`key` is just removed); and when `key` is
absent the record is returned entirely unchanged. -/
theorem c4_flatten_contract (es : List (String × Value)) (k : String) :
    (∃ es', flat_nested_dictionary (.dict es) k = .ok (.dict es') ∧
      lookupKV k es' = Option.none ∧
      (∀ ns, lookupKV k es = some (.dict ns) → (ns.map Prod.fst).Nodup →
        ∀ k', k' ≠ k →
          lookupKV k' es' =
            match lookupKV k' ns with
            | some v => some v
            | Option.none => lookupKV k' es) ∧
      (∀ v, lookupKV k es = some v → (∀ ns, v ≠ .dict ns) →
        es' = dictPop es k)) ∧
    (lookupKV k es = Option.none →
      flat_nested_dictionary (.dict es) k = .ok (.dict es)) := by
  constructor
  · rcases hlk : lookupKV k es with _ | v
    · refine ⟨es, ?_, hlk, ?_, ?_⟩
      · rw [flat_nested_dictionary_dict, hlk]
        show Except.ok (Value.dict (dictPop (dictUpdate es []) k)) = _
        rw [dictUpdate_nil, dictPop_eq_self hlk]
      · intro ns hns
        exact absurd hns (by simp)
      · intro v hv
        exact absurd hv (by simp)
    · rcases v with _ | b | n | s | l | ns
      case dict =>
        refine ⟨dictPop (dictUpdate es ns) k, ?_, ?_, ?_, ?_⟩
        · rw [flat_nested_dictionary_dict, hlk]; rfl
        · exact lookupKV_dictPop_self _ k
        · intro ns' hns' hnd k' hk'
          have h2 : Value.dict ns = Value.dict ns' := by injection hns'
          have h4 : ns = ns' := by injection h2
          subst h4
          rw [lookupKV_dictPop_ne _ _ _ hk']
          rcases hn : lookupKV k' ns with _ | w
          · exact lookupKV_dictUpdate_of_none ns es k' hn
          · exact lookupKV_dictUpdate_of_some ns es k' w hnd hn
        · intro v hv hnotdict
          have h2 : Value.dict ns = v := by injection hv
          exact absurd h2.symm (hnotdict ns)
      all_goals
        refine ⟨dictPop es k, ?_, lookupKV_dictPop_self _ k, ?_,
          fun _ _ _ => rfl⟩
      all_goals try
        (rw [flat_nested_dictionary_dict, hlk]; rfl)
      all_goals
        intro ns hns
      all_goals
        exact absurd hns (by simp)
  · intro hlk
    rw [flat_nested_dictionary_dict, hlk]
    show Except.ok (Value.dict (dictPop (dictUpdate es []) k)) = _
    rw [dictUpdate_nil, dictPop_eq_self hlk]

theorem extract_value_exists_ok (d : Value) (p : List String) (u : Value) :
    ∃ v, extract_value d p u = .ok v := by
  rcases extract_value_loop_ok_or_attrErr p d u with ⟨w, hw⟩ | ⟨m, hm⟩
  · exact ⟨_, by unfold extract_value; rw [hw]⟩
  · exact ⟨u, by unfold extract_value; rw [hm]⟩

theorem collect_secondary_all_dicts (primary : Value) :
    ∀ (arts : List Value), (∀ a ∈ arts, ∃ ea, a = .dict ea) →
      collect_secondary primary arts =
        .ok ((arts.map artistName).filter (fun n => n ≠ primary)) := by
  intro arts
  induction arts with
  | nil => intro _; rfl
  | cons a rest ih =>
    intro h
    obtain ⟨ea, hea⟩ := h a (List.mem_cons_self a rest)
    subst hea
    rw [collect_secondary, safe_get_dict, pybind_ok,
      ih (fun b hb => h b (List.mem_cons_of_mem _ hb)), pybind_ok,
      List.map_cons, List.filter_cons]
    by_cases hn : (lookupKV "name" ea).getD UNKNOWN_VALUE = primary
    · rw [if_pos hn]
      simp [artistName, hn]
    · rw [if_neg hn]
      simp [artistName, hn]

/-! ## Claim C2 -/

/-- C2: refuted intent — in `genius_artist_search` the `ArtistNotFoundError`
raised for a name mismatch is itself caught by the function's own
`except Exception` clause and re-raised as a fresh generic `GeniusAPIError`,
so the caller of `fetch_genius_artist_data` receives `GeniusAPIError`, not
`ArtistNotFoundError`, contradicting both the claim and the code's
docstrings ("Raises: ArtistNotFoundError: If the artist is not found.").
Evaluated at the failing input: a client answering the query `"Test"` with
an artist named `"Other"`. -/
theorem c2_not_found_error_swallowed :
    fetch_genius_artist_data mismatchGeniusClient "Test" 10 =
      .error (.geniusAPIError
        ("Error fetching artist 'Test' from Genius API: " ++
          "Artist 'Test' not found on Genius.")) ∧
    ∀ m, fetch_genius_artist_data mismatchGeniusClient "Test" 10 ≠
      .error (.artistNotFoundError m) := by
  constructor
  · rfl
  · intro m h
    rw [show fetch_genius_artist_data mismatchGeniusClient "Test" 10 =
      .error (.geniusAPIError
        ("Error fetching artist 'Test' from Genius API: " ++
          "Artist 'Test' not found on Genius.")) from rfl] at h
    exact absurd h (by simp)

/-! ## Claim C10 -/

/-- C10: a Genius track that is the empty mapping builds to `None` rather
than a record, and consequently the `artist_tracks` list returned by the
orchestrator contains a null entry whenever the raw `songs` list contains an
empty mapping — here for a client returning `{'name': 'Test',
'songs': [{}]}`. -/
theorem c10_empty_track_builds_none :
    build_genius_artist_track (.dict []) = .ok .none ∧
    (fetch_genius_artist_data emptySongGeniusClient "Test" 10 >>= fun v =>
      getItem v "artist_tracks") = .ok (.list [Value.none]) :=
  ⟨rfl, rfl⟩

/-! ## Claim C9 -/

/-- C9: for a non-empty raw Genius track whose `primary_artists` entry is a
list of artist dicts, the built record's `primary_artist` field is the value
reached through the nested path `['primary_artist', 'name']`, and its
`primary_artists` field is the list of the listed artists' names with every
name equal to the primary-artist name removed and all other duplicates
kept; in particular, for the spec's scenario track (primary artist
`"Test"`, listed primary artists `"Test"` and `"Feat"`) the record carries
`primary_artist "Test"` and secondary list `["Feat"]`. -/
theorem c9_primary_artists_semantics
    (es : List (String × Value)) (arts : List Value)
    (hne : es ≠ [])
    (hpa : lookupKV "primary_artists" es = some (.list arts))
    (hdicts : ∀ a ∈ arts, ∃ ea, a = .dict ea) :
    ∃ pa rec,
      safe_extract (.dict es) ["primary_artist", "name"] UNKNOWN_VALUE
        = .ok pa ∧
      build_genius_artist_track (.dict es) = .ok (.dict rec) ∧
      lookupKV "primary_artist" rec = some pa ∧
      lookupKV "primary_artists" rec =
        some (.list ((arts.map artistName).filter (fun n => n ≠ pa))) ∧
      (build_genius_artist_track geniusSpecTrack >>= fun r =>
        getItem r "primary_artist") = .ok (.str "Test") ∧
      (build_genius_artist_track geniusSpecTrack >>= fun r =>
        getItem r "primary_artists") = .ok (.list [.str "Feat"]) := by
  obtain ⟨pa, hpaex⟩ :=
    extract_value_exists_ok (.dict es) ["primary_artist", "name"]
      UNKNOWN_VALUE
  obtain ⟨pv, hpvex⟩ :=
    extract_value_exists_ok (.dict es) ["stats", "pageviews"] UNKNOWN_VALUE
  obtain ⟨desc, hdescex⟩ :=
    extract_value_exists_ok (.dict es) ["description", "plain"] UNKNOWN_VALUE
  have hse1 : safe_extract (.dict es) ["primary_artist", "name"]
      UNKNOWN_VALUE = .ok pa := hpaex
  have hse2 : safe_extract (.dict es) ["stats", "pageviews"]
      UNKNOWN_VALUE = .ok pv := hpvex
  have hse3 : safe_extract (.dict es) ["description", "plain"]
      UNKNOWN_VALUE = .ok desc := hdescex
  have h0 : ¬(Value.dict es = Value.dict []) := by
    intro h; injection h with h; exact hne h
  have hbuild : build_genius_artist_track (.dict es) = .ok (.dict
      [("genius_track_id", (lookupKV "id" es).getD UNKNOWN_VALUE),
       ("genius_title", (lookupKV "title" es).getD UNKNOWN_VALUE),
       ("genius_release_date",
         (lookupKV "release_date" es).getD UNKNOWN_VALUE),
       ("genius_album", (lookupKV "album" es).getD UNKNOWN_VALUE),
       ("genius_track_api_path",
         (lookupKV "api_path" es).getD UNKNOWN_VALUE),
       ("genius_pageviews", pv),
       ("genius_track_url", (lookupKV "url" es).getD UNKNOWN_VALUE),
       ("genius_track_image_url",
         (lookupKV "song_art_image_url" es).getD UNKNOWN_VALUE),
       ("genius_track_language",
         (lookupKV "language" es).getD UNKNOWN_VALUE),
       ("genius_track_description", desc),
       ("genius_lyrics", (lookupKV "lyrics" es).getD UNKNOWN_VALUE),
       ("genius_lyrics_is_complete",
         (lookupKV "lyrics_state" es).getD UNKNOWN_VALUE),
       ("primary_artist", pa),
       ("primary_artists",
         .list ((arts.map artistName).filter (fun n => n ≠ pa))),
       ("genius_featured_artists",
         (lookupKV "featured_artists" es).getD (.list []))]) := by
    unfold build_genius_artist_track
    rw [if_neg h0]
    simp only [hse1, hse2, hse3, safe_get_dict, hpa, Option.getD_some,
      toIterable, collect_secondary_all_dicts pa arts hdicts, pybind_ok]
  exact ⟨pa, _, hpaex, hbuild, by simp [lookupKV], by simp [lookupKV],
    rfl, rfl⟩

/-- Witness for C9: the theorem applied to the spec's scenario track. -/
theorem c9_primary_artists_semantics_witness :
    (geniusSpecTrackEntries ≠ []) ∧
    (lookupKV "primary_artists" geniusSpecTrackEntries
      = some (.list geniusSpecArtists)) ∧
    (∀ a ∈ geniusSpecArtists, ∃ ea, a = Value.dict ea) ∧
    (∃ pa rec,
      safe_extract (.dict geniusSpecTrackEntries)
        ["primary_artist", "name"] UNKNOWN_VALUE = .ok pa ∧
      build_genius_artist_track (.dict geniusSpecTrackEntries)
        = .ok (.dict rec) ∧
      lookupKV "primary_artist" rec = some pa ∧
      lookupKV "primary_artists" rec =
        some (.list ((geniusSpecArtists.map artistName).filter
          (fun n => n ≠ pa))) ∧
      (build_genius_artist_track geniusSpecTrack >>= fun r =>
        getItem r "primary_artist") = .ok (.str "Test") ∧
      (build_genius_artist_track geniusSpecTrack >>= fun r =>
        getItem r "primary_artists") = .ok (.list [.str "Feat"])) :=
  ⟨by simp [geniusSpecTrackEntries], rfl,
    fun a ha => by
      rcases List.mem_cons.mp ha with h | h
      · exact ⟨[("name", .str "Test")], h⟩
      · rcases List.mem_cons.mp h with h' | h'
        · exact ⟨[("name", .str "Feat")], h'⟩
        · exact absurd h' (List.not_mem_nil a),
    c9_primary_artists_semantics geniusSpecTrackEntries geniusSpecArtists
      (by simp [geniusSpecTrackEntries]) rfl
      (fun a ha => by
        rcases List.mem_cons.mp ha with h | h
        · exact ⟨[("name", .str "Test")], h⟩
        · rcases List.mem_cons.mp h with h' | h'
          · exact ⟨[("name", .str "Feat")], h'⟩
          · exact absurd h' (List.not_mem_nil a))⟩

/-! ## Pagination and deduplication lemmas -/

theorem idOfD_of_getItem {a k : Value} (h : getItem a "id" = .ok k) :
    idOfD a = some k := by
  cases a with
  | dict es =>
    rw [idOfD]
    rw [getItem] at h
    cases hl : lookupKV "id" es <;> rw [hl] at h
    · exact absurd h (by simp)
    · injection h with h; rw [h]
  | none => exact absurd h (by simp [getItem])
  | bool b => exact absurd h (by simp [getItem])
  | int n => exact absurd h (by simp [getItem])
  | str s => exact absurd h (by simp [getItem])
  | list l => exact absurd h (by simp [getItem])

theorem getItem_of_idOfD {a k : Value} (h : idOfD a = some k) :
    getItem a "id" = .ok k := by
  cases a with
  | dict es =>
    rw [idOfD] at h
    rw [getItem, h]
  | none => exact absurd h (by simp [idOfD])
  | bool b => exact absurd h (by simp [idOfD])
  | int n => exact absurd h (by simp [idOfD])
  | str s => exact absurd h (by simp [idOfD])
  | list l => exact absurd h (by simp [idOfD])

theorem build_id_map_ok :
    ∀ (acc : List Value) (m : List (Value × Value)),
      (∀ a ∈ acc, (idOfD a).isSome = true) →
      ∃ r, build_id_map m acc = .ok r := by
  intro acc
  induction acc with
  | nil => intro m _; exact ⟨m, rfl⟩
  | cons a rest ih =>
    intro m h
    obtain ⟨k, hk⟩ := Option.isSome_iff_exists.mp
      (h a (List.mem_cons_self a rest))
    obtain ⟨r, hr⟩ := ih (dictSet m k a)
      (fun b hb => h b (List.mem_cons_of_mem a hb))
    exact ⟨r, by rw [build_id_map, getItem_of_idOfD hk, pybind_ok, hr]⟩

theorem build_id_map_lookup :
    ∀ (acc : List Value) (m r : List (Value × Value)),
      build_id_map m acc = .ok r → ∀ k : Value,
      lookupKV k r =
        match lastWithId k acc with
        | some b => some b
        | Option.none => lookupKV k m := by
  intro acc
  induction acc with
  | nil =>
    intro m r h k
    injection h with h
    subst h
    rfl
  | cons a rest ih =>
    intro m r h k
    rw [build_id_map] at h
    cases hid : getItem a "id" with
    | error e => rw [hid, pybind_error] at h; exact absurd h (by simp)
    | ok ka =>
      rw [hid, pybind_ok] at h
      have hstep := ih (dictSet m ka a) r h k
      have hida : idOfD a = some ka := idOfD_of_getItem hid
      rw [hstep, lastWithId, hida]
      cases hrest : lastWithId k rest with
      | some b => rfl
      | none =>
        by_cases hk : ka = k
        · subst hk
          rw [if_pos rfl, lookupKV_dictSet_self]
        · rw [if_neg (by intro hh; exact hk (by injection hh)),
            lookupKV_dictSet_ne _ _ _ _ (fun he => hk he.symm)]

theorem build_id_map_nodup :
    ∀ (acc : List Value) (m r : List (Value × Value)),
      build_id_map m acc = .ok r →
      (m.map Prod.fst).Nodup → (r.map Prod.fst).Nodup := by
  intro acc
  induction acc with
  | nil =>
    intro m r h hm
    injection h with h
    subst h
    exact hm
  | cons a rest ih =>
    intro m r h hm
    rw [build_id_map] at h
    cases hid : getItem a "id" with
    | error e => rw [hid, pybind_error] at h; exact absurd h (by simp)
    | ok ka =>
      rw [hid, pybind_ok] at h
      exact ih _ _ h (nodup_keys_dictSet m ka a hm)

theorem build_id_map_entries :
    ∀ (acc : List Value) (m r : List (Value × Value)),
      build_id_map m acc = .ok r →
      (∀ p ∈ m, idOfD p.2 = some p.1) →
      ∀ p ∈ r, idOfD p.2 = some p.1 := by
  intro acc
  induction acc with
  | nil =>
    intro m r h hm
    injection h with h
    subst h
    exact hm
  | cons a rest ih =>
    intro m r h hm
    rw [build_id_map] at h
    cases hid : getItem a "id" with
    | error e => rw [hid, pybind_error] at h; exact absurd h (by simp)
    | ok ka =>
      rw [hid, pybind_ok] at h
      refine ih _ _ h (fun p hp => ?_)
      rcases mem_dictSet hp with hp | hp
      · exact hm p hp
      · subst hp
        exact idOfD_of_getItem hid

theorem lastWithId_isSome_of_mem {acc : List Value} {a k : Value}
    (ha : a ∈ acc) (hk : idOfD a = some k) :
    ∃ b, lastWithId k acc = some b := by
  induction acc with
  | nil => exact absurd ha (List.not_mem_nil a)
  | cons c rest ih =>
    rw [lastWithId]
    cases hrest : lastWithId k rest with
    | some b => exact ⟨b, rfl⟩
    | none =>
      rcases List.mem_cons.mp ha with h | h
      · subst h
        rw [if_pos hk]
        exact ⟨a, rfl⟩
      · obtain ⟨b, hb⟩ := ih h
        rw [hb] at hrest
        exact absurd hrest (by simp)

theorem lastWithId_spec {k : Value} :
    ∀ {acc : List Value} {b : Value}, lastWithId k acc = some b →
      b ∈ acc ∧ idOfD b = some k := by
  intro acc
  induction acc with
  | nil => intro b h; exact absurd h (by simp [lastWithId])
  | cons a rest ih =>
    intro b h
    rw [lastWithId] at h
    cases hrest : lastWithId k rest with
    | some c =>
      rw [hrest] at h
      injection h with h
      subst h
      obtain ⟨hmem, hid⟩ := ih hrest
      exact ⟨List.mem_cons_of_mem a hmem, hid⟩
    | none =>
      rw [hrest] at h
      by_cases hc : idOfD a = some k
      · rw [if_pos hc] at h
        injection h with h
        subst h
        exact ⟨List.mem_cons_self a rest, hc⟩
      · rw [if_neg hc] at h
        exact absurd h (by simp)

theorem lookupKV_of_mem_nodup {κ α : Type} [DecidableEq κ]
    {d : List (κ × α)} {p : κ × α}
    (hnd : (d.map Prod.fst).Nodup) (hp : p ∈ d) :
    lookupKV p.1 d = some p.2 := by
  induction d with
  | nil => exact absurd hp (List.not_mem_nil p)
  | cons q rest ih =>
    rw [List.map_cons, List.nodup_cons] at hnd
    rcases List.mem_cons.mp hp with h | h
    · subst h
      rw [lookupKV, if_pos rfl]
    · rw [lookupKV]
      by_cases hq : q.1 = p.1
      · exact absurd (hq ▸ List.mem_map_of_mem Prod.fst h) hnd.1
      · rw [if_neg hq]
        exact ih hnd.2 h

theorem mem_of_lookupKV {κ α : Type} [DecidableEq κ]
    {d : List (κ × α)} {k : κ} {v : α}
    (h : lookupKV k d = some v) : (k, v) ∈ d := by
  induction d with
  | nil => exact absurd h (by simp [lookupKV])
  | cons q rest ih =>
    rw [lookupKV] at h
    by_cases hq : q.1 = k
    · rw [if_pos hq] at h
      injection h with h
      have : q = (k, v) := by
        cases q
        simp only at hq h
        rw [hq, h]
      exact this ▸ List.mem_cons_self q rest
    · rw [if_neg hq] at h
      exact List.mem_cons_of_mem q (ih h)

/-! ## Claim C5 -/

/-- C5: for the album pagination: whenever the first page fetch and the
page loop succeed with accumulated item list `acc`, every element of which
carries an identifier, `get_artist_albums` returns a list holding exactly
one item per unique identifier — its id list is duplicate-free and every
accumulated id is represented — and each returned item is the last
accumulated occurrence of its id, so when an id occurs on an earlier and on
a later page the later page's item is the one kept. -/
theorem c5_album_dedup_last_write_wins
    (client : SpotifyClient) (aid : Value) (types : List String) (fuel : Nat)
    (p0 : Value) (acc : List Value)
    (h0 : client.artist_albums aid (String.intercalate "," types) 50
      = .ok p0)
    (hloop : page_loop client fuel p0 [] = .ok acc)
    (hids : ∀ a ∈ acc, (idOfD a).isSome = true) :
    ∃ out, get_artist_albums client aid types fuel = .ok out ∧
      (out.map idOfD).Nodup ∧
      (∀ a ∈ acc, ∃ b, b ∈ out ∧ idOfD b = idOfD a) ∧
      (∀ b ∈ out, b ∈ acc ∧ ∃ k, idOfD b = some k ∧
        lastWithId k acc = some b) := by
  obtain ⟨r, hr⟩ := build_id_map_ok acc [] hids
  have hlook := build_id_map_lookup acc [] r hr
  have hnd := build_id_map_nodup acc [] r hr (by simp)
  have hent := build_id_map_entries acc [] r hr (by simp)
  refine ⟨r.map Prod.snd, ?_, ?_, ?_, ?_⟩
  · unfold get_artist_albums dedup_by_id
    rw [h0, pybind_ok, hloop, pybind_ok, hr, pybind_ok]
  · have hmm : (r.map Prod.snd).map idOfD = (r.map Prod.fst).map some := by
      rw [List.map_map, List.map_map]
      exact List.map_congr_left (fun p hp => hent p hp)
    rw [hmm]
    exact hnd.map (Option.some_injective Value)
  · intro a ha
    obtain ⟨k, hk⟩ := Option.isSome_iff_exists.mp (hids a ha)
    obtain ⟨b, hb⟩ := lastWithId_isSome_of_mem ha hk
    have hlk : lookupKV k r = some b := by rw [hlook k, hb]
    refine ⟨b, List.mem_map_of_mem Prod.snd (mem_of_lookupKV hlk), ?_⟩
    rw [(lastWithId_spec hb).2, hk]
  · intro b hb
    obtain ⟨p, hp, hps⟩ := List.mem_map.mp hb
    subst hps
    have hid : idOfD p.2 = some p.1 := hent p hp
    have hlk : lookupKV p.1 r = some p.2 := lookupKV_of_mem_nodup hnd hp
    rw [hlook p.1] at hlk
    cases hlast : lastWithId p.1 acc with
    | none =>
      rw [hlast] at hlk
      exact absurd hlk (by simp [lookupKV])
    | some c =>
      rw [hlast] at hlk
      injection hlk with hlk
      obtain ⟨hmem, _⟩ := lastWithId_spec hlast
      subst hlk
      exact ⟨hmem, p.1, hid, hlast⟩

/-- Witness for C5: the spec's three-page scenario — pages
`[a1, b] → [c, d] → [a3, e]` with id `"a"` on pages 1 and 3 — deduplicates
to one item per id with the page-3 version of `"a"` kept. -/
theorem c5_album_dedup_last_write_wins_witness :
    (threePageSpotifyClient.artist_albums (.str "art")
      (String.intercalate "," ["album", "single"]) 50 = .ok albumsPage1) ∧
    (page_loop threePageSpotifyClient 10 albumsPage1 []
      = .ok [albumA1, albumB, albumC, albumD, albumA3, albumE]) ∧
    (∀ a ∈ [albumA1, albumB, albumC, albumD, albumA3, albumE],
      (idOfD a).isSome = true) ∧
    (get_artist_albums threePageSpotifyClient (.str "art")
      ["album", "single"] 10 = .ok [albumA3, albumB, albumC, albumD,
        albumE]) ∧
    (∃ out, get_artist_albums threePageSpotifyClient (.str "art")
        ["album", "single"] 10 = .ok out ∧
      (out.map idOfD).Nodup ∧
      (∀ a ∈ [albumA1, albumB, albumC, albumD, albumA3, albumE],
        ∃ b, b ∈ out ∧ idOfD b = idOfD a) ∧
      (∀ b ∈ out, b ∈ [albumA1, albumB, albumC, albumD, albumA3, albumE] ∧
        ∃ k, idOfD b = some k ∧
          lastWithId k [albumA1, albumB, albumC, albumD, albumA3, albumE]
            = some b)) :=
  ⟨rfl, by decide, by decide, by decide,
    c5_album_dedup_last_write_wins threePageSpotifyClient (.str "art")
      ["album", "single"] 10 albumsPage1
      [albumA1, albumB, albumC, albumD, albumA3, albumE]
      rfl (by decide) (by decide)⟩

/-! ## Claim C3 -/

/-- C3 counterexample: the claim fails for the album-tracks traversal —
`get_album_tracks` has no deduplication step.  With one page holding two
distinct tracks sharing the id `"x"`, both items survive in the returned
list. -/
theorem c3_album_tracks_no_dedup_counterexample :
    get_album_tracks dupTrackSpotifyClient (.str "alb") 5 =
      .ok [trackX1, trackX2] ∧
    idOfD trackX1 = some (.str "x") ∧
    idOfD trackX2 = some (.str "x") ∧
    trackX1 ≠ trackX2 :=
  ⟨rfl, rfl, rfl, by decide⟩

/-- C3 (amended): only the artist-albums traversal deduplicates: after its
pages are accumulated, `get_artist_albums` returns exactly the id
deduplication of the accumulated items, in which each kept item is the last
accumulated item bearing its id (last write wins); the album-tracks
traversal `get_album_tracks` returns the accumulated items as they are,
with no deduplication step. -/
theorem c3_pagination_dedup_amended :
    (∀ (client : SpotifyClient) (aid : Value) (types : List String)
       (fuel : Nat) (p0 : Value) (acc : List Value),
      client.artist_albums aid (String.intercalate "," types) 50 = .ok p0 →
      page_loop client fuel p0 [] = .ok acc →
      get_artist_albums client aid types fuel = dedup_by_id acc) ∧
    (∀ (acc out : List Value), dedup_by_id acc = .ok out →
      ∀ b ∈ out, ∃ k, idOfD b = some k ∧ lastWithId k acc = some b) ∧
    (∀ (client : SpotifyClient) (album_id : Value) (fuel : Nat)
       (p0 : Value) (acc : List Value),
      client.album_tracks album_id = .ok p0 →
      page_loop client fuel p0 [] = .ok acc →
      get_album_tracks client album_id fuel = .ok acc) := by
  refine ⟨?_, ?_, ?_⟩
  · intro client aid types fuel p0 acc h0 hloop
    unfold get_artist_albums
    rw [h0, pybind_ok, hloop, pybind_ok]
  · intro acc out hded b hb
    unfold dedup_by_id at hded
    cases hbm : build_id_map [] acc with
    | error e =>
      rw [hbm, pybind_error] at hded
      exact absurd hded (by simp)
    | ok r =>
      rw [hbm, pybind_ok] at hded
      injection hded with hded
      subst hded
      obtain ⟨p, hp, hps⟩ := List.mem_map.mp hb
      subst hps
      have hid : idOfD p.2 = some p.1 :=
        build_id_map_entries acc [] r hbm (by simp) p hp
      have hlk : lookupKV p.1 r = some p.2 :=
        lookupKV_of_mem_nodup (build_id_map_nodup acc [] r hbm (by simp)) hp
      rw [build_id_map_lookup acc [] r hbm p.1] at hlk
      cases hlast : lastWithId p.1 acc with
      | none =>
        rw [hlast] at hlk
        exact absurd hlk (by simp [lookupKV])
      | some c =>
        rw [hlast] at hlk
        injection hlk with hlk
        subst hlk
        exact ⟨p.1, hid, hlast⟩
  · intro client album_id fuel p0 acc h0 hloop
    unfold get_album_tracks
    rw [h0, pybind_ok, hloop]

/-- Witness for C3 (amended): the three conjuncts applied to the concrete
three-page album client and to the duplicate-id track client. -/
theorem c3_pagination_dedup_amended_witness :
    (get_artist_albums threePageSpotifyClient (.str "art")
      ["album", "single"] 10 =
        dedup_by_id [albumA1, albumB, albumC, albumD, albumA3, albumE]) ∧
    (∀ b ∈ [albumA3, albumB, albumC, albumD, albumE], ∃ k,
      idOfD b = some k ∧
      lastWithId k [albumA1, albumB, albumC, albumD, albumA3, albumE]
        = some b) ∧
    (get_album_tracks dupTrackSpotifyClient (.str "alb") 5
      = .ok [trackX1, trackX2]) :=
  ⟨c3_pagination_dedup_amended.1 threePageSpotifyClient (.str "art")
      ["album", "single"] 10 albumsPage1
      [albumA1, albumB, albumC, albumD, albumA3, albumE] rfl (by decide),
   c3_pagination_dedup_amended.2.1
      [albumA1, albumB, albumC, albumD, albumA3, albumE]
      [albumA3, albumB, albumC, albumD, albumE] (by decide),
   c3_pagination_dedup_amended.2.2 dupTrackSpotifyClient (.str "alb") 5
      (mkPage [trackX1, trackX2] .none) [trackX1, trackX2] rfl (by decide)⟩

/-! ## Claim C7 -/

/-- C7 counterexample: `build_spotify_artist_data` does not perform all
field extraction through the safe accessors — it computes
`safe_get(safe_get(result, 'images')[0], 'url')`, indexing the raw `images`
value directly.  On a response without `images` the sentinel string is
indexed and its first character `'U'` is fed to `.get`, raising
`AttributeError`; on a response with an empty `images` list the `[0]`
raises `IndexError`.  Either way the builder raises because of a missing
field instead of degrading to the sentinel. -/
theorem c7_spotify_builder_direct_indexing_counterexample :
    build_spotify_artist_data stubSpotifyClient (.dict [("id", .str "A")]) =
      .error (.attributeError "'str' object has no attribute 'get'") ∧
    build_spotify_artist_data stubSpotifyClient
        (.dict [("id", .str "A"), ("images", .list [])]) =
      .error (.indexError "list index out of range") :=
  ⟨rfl, rfl⟩

/-- C7 (amended): the Genius track builder does extract every field through
the safe accessors only, so a non-empty raw track carrying none of the
expected keys builds — without raising — to the record in which every
scalar field is the sentinel and both list fields are empty; the exception
is `build_spotify_artist_data`, which indexes `images[0]` directly and
raises when `images` is absent or empty (see the counterexample). -/
theorem c7_builders_missing_fields_amended
    (es : List (String × Value)) (hne : es ≠ [])
    (hmiss : ∀ p ∈ es, p.1 ∉ geniusTrackKeys) :
    build_genius_artist_track (.dict es) = .ok allUnknownGeniusTrack := by
  have hl : ∀ k ∈ geniusTrackKeys, lookupKV k es = Option.none := fun k hk =>
    lookupKV_eq_none.mpr (fun p hp he => hmiss p hp (he ▸ hk))
  have h0 : ¬(Value.dict es = Value.dict []) := by
    intro h; injection h with h; exact hne h
  have h_id := hl "id" (by simp [geniusTrackKeys])
  have h_title := hl "title" (by simp [geniusTrackKeys])
  have h_release_date := hl "release_date" (by simp [geniusTrackKeys])
  have h_album := hl "album" (by simp [geniusTrackKeys])
  have h_api_path := hl "api_path" (by simp [geniusTrackKeys])
  have h_stats := hl "stats" (by simp [geniusTrackKeys])
  have h_url := hl "url" (by simp [geniusTrackKeys])
  have h_song_art := hl "song_art_image_url" (by simp [geniusTrackKeys])
  have h_language := hl "language" (by simp [geniusTrackKeys])
  have h_description := hl "description" (by simp [geniusTrackKeys])
  have h_lyrics := hl "lyrics" (by simp [geniusTrackKeys])
  have h_lyrics_state := hl "lyrics_state" (by simp [geniusTrackKeys])
  have h_primary_artist := hl "primary_artist" (by simp [geniusTrackKeys])
  have h_primary_artists := hl "primary_artists" (by simp [geniusTrackKeys])
  have h_featured := hl "featured_artists" (by simp [geniusTrackKeys])
  have hse1 : safe_extract (.dict es) ["primary_artist", "name"]
      UNKNOWN_VALUE = .ok UNKNOWN_VALUE :=
    extract_value_cons_hit es "primary_artist" ["name"] UNKNOWN_VALUE
      (by rw [h_primary_artist]; rfl)
  have hse2 : safe_extract (.dict es) ["stats", "pageviews"]
      UNKNOWN_VALUE = .ok UNKNOWN_VALUE :=
    extract_value_cons_hit es "stats" ["pageviews"] UNKNOWN_VALUE
      (by rw [h_stats]; rfl)
  have hse3 : safe_extract (.dict es) ["description", "plain"]
      UNKNOWN_VALUE = .ok UNKNOWN_VALUE :=
    extract_value_cons_hit es "description" ["plain"] UNKNOWN_VALUE
      (by rw [h_description]; rfl)
  unfold build_genius_artist_track
  rw [if_neg h0]
  simp only [hse1, hse2, hse3, safe_get_dict, h_id, h_title, h_release_date,
    h_album, h_api_path, h_url, h_song_art, h_language, h_lyrics,
    h_lyrics_state, h_primary_artists, h_featured, Option.getD_none,
    toIterable, pybind_ok]
  rfl

/-- Witness for C7 (amended): a raw track holding only the unexpected key
`'foo'` builds to the all-sentinel record. -/
theorem c7_builders_missing_fields_amended_witness :
    ([(("foo" : String), Value.int 1)] ≠ ([] : List (String × Value))) ∧
    (∀ p ∈ [(("foo" : String), Value.int 1)], p.1 ∉ geniusTrackKeys) ∧
    build_genius_artist_track (.dict [("foo", .int 1)])
      = .ok allUnknownGeniusTrack :=
  ⟨by simp, by decide,
    c7_builders_missing_fields_amended [("foo", .int 1)] (by simp)
      (by decide)⟩

/-! ## Claim C6 -/

/-- C6 counterexample: the Spotify orchestrator
`fetch_spotify_artist_data` has no `try`/`except` boundary and
`spotify_extract.py` defines no domain error type at all, so an unexpected
exception raised by the client's search reaches the orchestrator's caller
verbatim instead of being re-raised as a provider domain error carrying the
original message. -/
theorem c6_spotify_no_boundary_counterexample :
    fetch_spotify_artist_data boomSpotifyClient "X" 5 =
      .error (.otherError "boom") := rfl

/-- C6 (amended): only the Genius orchestrator has the claimed behaviour:
an unexpected exception from the client is wrapped into the provider's
domain error type `GeniusAPIError` carrying the original message (the
wrapping happens in `genius_artist_search`, and the orchestrator's
`except (GeniusAPIError, ArtistNotFoundError, TrackDataError)` then passes
the domain error through unchanged).  The Spotify orchestrator performs no
wrapping whatsoever: any exception from its client's search propagates to
the caller unchanged. -/
theorem c6_error_boundary_amended :
    (∀ (gc : GeniusClient) (name : String) (n : Nat) (e : PyErr),
      gc.search_artist name n = .error e →
      fetch_genius_artist_data gc name n =
        .error (.geniusAPIError
          ("Error fetching artist '" ++ name ++ "' from Genius API: "
            ++ e.msg))) ∧
    (∀ (sc : SpotifyClient) (name : String) (fuel : Nat) (e : PyErr),
      sc.search name "artist" = .error e →
      fetch_spotify_artist_data sc name fuel = .error e) := by
  constructor
  · intro gc name n e h
    have hsearch : genius_artist_search gc name n =
        .error (.geniusAPIError
          ("Error fetching artist '" ++ name ++ "' from Genius API: "
            ++ e.msg)) := by
      unfold genius_artist_search
      rw [h]
      rfl
    unfold fetch_genius_artist_data fetch_genius_body
    rw [hsearch]
    rfl
  · intro sc name fuel e h
    unfold fetch_spotify_artist_data spotify_artist_search
    rw [h]
    rfl

/-- Witness for C6 (amended): a Genius client failing with
`'connection reset'` surfaces as a `GeniusAPIError` wrapping that message; a
Spotify client failing with `'boom'` surfaces as the raw error itself. -/
theorem c6_error_boundary_amended_witness :
    (errGeniusClient.search_artist "Test" 10
      = .error (.otherError "connection reset")) ∧
    (fetch_genius_artist_data errGeniusClient "Test" 10 =
      .error (.geniusAPIError
        ("Error fetching artist '" ++ "Test" ++ "' from Genius API: "
          ++ (PyErr.otherError "connection reset").msg))) ∧
    (boomSpotifyClient.search "X" "artist" = .error (.otherError "boom")) ∧
    (fetch_spotify_artist_data boomSpotifyClient "X" 7
      = .error (.otherError "boom")) :=
  ⟨rfl,
   c6_error_boundary_amended.1 errGeniusClient "Test" 10
     (.otherError "connection reset") rfl,
   rfl,
   c6_error_boundary_amended.2 boomSpotifyClient "X" 7
     (.otherError "boom") rfl⟩

/-- Witness for C4: the flattener applied to `{'x': {'a': 1}, 'b': 2}` and
key `'x'`, the concrete record of the spec's testable property. -/
theorem c4_flatten_contract_witness :
    (∃ es', flat_nested_dictionary
        (.dict [("x", .dict [("a", .int 1)]), ("b", .int 2)]) "x"
          = .ok (.dict es') ∧
      lookupKV "x" es' = Option.none ∧
      (∀ ns, lookupKV "x" [("x", Value.dict [("a", Value.int 1)]),
          ("b", Value.int 2)] = some (.dict ns) →
        (ns.map Prod.fst).Nodup →
        ∀ k', k' ≠ "x" →
          lookupKV k' es' =
            match lookupKV k' ns with
            | some v => some v
            | Option.none =>
              lookupKV k' [("x", Value.dict [("a", Value.int 1)]),
                ("b", Value.int 2)]) ∧
      (∀ v, lookupKV "x" [("x", Value.dict [("a", Value.int 1)]),
          ("b", Value.int 2)] = some v → (∀ ns, v ≠ .dict ns) →
        es' = dictPop [("x", Value.dict [("a", Value.int 1)]),
          ("b", Value.int 2)] "x")) ∧
    (lookupKV "x" [("x", Value.dict [("a", Value.int 1)]),
        ("b", Value.int 2)] = Option.none →
      flat_nested_dictionary
        (.dict [("x", .dict [("a", .int 1)]), ("b", .int 2)]) "x"
          = .ok (.dict [("x", .dict [("a", .int 1)]), ("b", .int 2)])) :=
  c4_flatten_contract [("x", .dict [("a", .int 1)]), ("b", .int 2)] "x"

end ArtistMusic
